import Mathlib

/-
Shallow embedding of the ZION Lightning bridge (src/bridge/main.go), centred
on the PayInvoice operation and its HTTP handler handlePayInvoice, together
with the in-repo ZionRPCClient stubs GetBalance and SendTransaction.

The two external collaborators (the LND node and the ZION ledger RPC) are
modelled as environments recording the outcome of each call; PayInvoice is
translated line by line from the Go control flow and additionally returns the
ordered trace of external calls it issued, so that ordering, at-most-once and
no-mutation properties can be stated.
-/

namespace ZionBridge

/-- String constants appearing in the source, named so they can be passed as
arguments. -/
def lightningPoolAddress : String := "lightning_pool_address"

def msgCannotDecode : String := "cannot decode invoice: "

def msgCannotGetBalance : String := "cannot get ZION balance: "

def msgInsufficient : String := "insufficient ZION balance: "

def msgLessThan : String := " < "

def msgLightningFailed : String := "lightning payment failed: "

def msgPaymentError : String := "payment error: "

def msgDeductionFailed : String := "Warning: Lightning payment succeeded but ZION deduction failed: "

def keyError : String := "error"

def keyStatus : String := "status"

def valSuccess : String := "success"

def keyMessage : String := "message"

def valCompleted : String := "Lightning payment completed"

def keyMantra : String := "mantra"

def valMantra : String := "⚡ Jai Ram Ram Ram Sita Ram Ram Ram Hanuman! ⚡"

/-- Fields of the lnrpc.SendResponse that PayInvoice inspects: the payment
error string (empty means the payment settled) and the payment hash. -/
structure SendResponse where
  paymentError : String
  paymentHash  : String
deriving Repr, DecidableEq

/-- Outcomes of the two LND node calls PayInvoice makes, supplied as an
environment: DecodePayReq yields the invoice amount NumSatoshis or a decode
error, and SendPaymentSync yields a SendResponse or a transport error. -/
structure LndEnv where
  decodePayReq    : String → Except String Nat
  sendPaymentSync : String → Except String SendResponse

/-- Outcomes of the two ZionRPCClient calls PayInvoice makes. The in-repo
client is the stub zionRPCClient below; keeping the environment abstract also
lets theorems speak about a ledger call that fails. -/
structure ZionEnv where
  getBalance      : String → Except String Nat
  sendTransaction : String → String → Nat → Except String Unit

/-- GetBalance of ZionRPCClient: the source is a TODO stub that returns the
mock balance 1000000 and a nil error for every address. -/
def ZionRPCClient.GetBalance (address : String) : Except String Nat :=
  .ok 1000000

/-- SendTransaction of ZionRPCClient: the source is a TODO stub that only
logs the transaction and returns a nil error for every input. -/
def ZionRPCClient.SendTransaction (fromAddr toAddr : String) (amount : Nat) :
    Except String Unit :=
  .ok ()

/-- The ZionRPCClient of the source, packaged as an environment. -/
def zionRPCClient : ZionEnv :=
  ⟨ZionRPCClient.GetBalance, fun f t a => ZionRPCClient.SendTransaction f t a⟩

/-- External calls PayInvoice issues, in the order it issues them, plus the
warning log line it emits when the post-payment deduction fails. -/
inductive Event
  | decodePayReq (invoice : String)
  | getBalance (address : String)
  | sendPayment (invoice : String)
  | sendTransaction (fromAddr toAddr : String) (amount : Nat)
  | logWarning (msg : String)
deriving Repr, DecidableEq

/-- Whether a recorded call is the Lightning payment send. -/
def Event.isSend : Event → Bool
  | .sendPayment _ => true
  | _ => false

/-- Whether a recorded call is the ledger transfer. -/
def Event.isTransfer : Event → Bool
  | .sendTransaction _ _ _ => true
  | _ => false

/-- Intended ledger effect of one recorded call: a sendTransaction event
moves the amount from the source account to the target account (the Transfer
semantics the ZionRPCClient stub stands for); every other call leaves the
ledger untouched. -/
def Event.apply (ledger : String → Nat) : Event → String → Nat
  | .sendTransaction f t a => fun addr =>
      if addr = f then ledger addr - a
      else if addr = t then ledger addr + a
      else ledger addr
  | _ => ledger

/-- Fold of Event.apply over a call trace. -/
def applyEvents (ledger : String → Nat) : List Event → String → Nat
  | [] => ledger
  | e :: es => applyEvents (Event.apply ledger e) es

/-- Structured form of the errors PayInvoice returns; each constructor keeps
the data the corresponding fmt.Errorf interpolates. -/
inductive PayError
  | cannotDecodeInvoice (msg : String)
  | cannotGetBalance (msg : String)
  | insufficientBalance (balance needed : Nat)
  | lightningFailed (msg : String)
  | paymentError (msg : String)
deriving Repr, DecidableEq

/-- Error text of a PayError, mirroring the fmt.Errorf format strings of the
source. -/
def PayError.message : PayError → String
  | .cannotDecodeInvoice e => msgCannotDecode ++ e
  | .cannotGetBalance e => msgCannotGetBalance ++ e
  | .insufficientBalance b n => msgInsufficient ++ toString b ++ msgLessThan ++ toString n
  | .lightningFailed e => msgLightningFailed ++ e
  | .paymentError s => msgPaymentError ++ s

/-- PayInvoice of ZionLightningBridge, translated from the Go control flow:
decode the invoice, check the ZION balance, reject when the balance is below
the decoded amount, send the Lightning payment, reject on a send error or a
non-empty PaymentError, then deduct from the ZION balance; a deduction error
is only logged (the function still returns nil). The second component is the
ordered trace of external calls issued. -/
def PayInvoice (lnd : LndEnv) (zion : ZionEnv) (invoice zionAddress : String) :
    Except PayError Unit × List Event :=
  match lnd.decodePayReq invoice with
  | .error e => (.error (.cannotDecodeInvoice e), [.decodePayReq invoice])
  | .ok numSatoshis =>
    match zion.getBalance zionAddress with
    | .error e =>
        (.error (.cannotGetBalance e),
          [.decodePayReq invoice, .getBalance zionAddress])
    | .ok balance =>
        if balance < numSatoshis then
          (.error (.insufficientBalance balance numSatoshis),
            [.decodePayReq invoice, .getBalance zionAddress])
        else
          match lnd.sendPaymentSync invoice with
          | .error e =>
              (.error (.lightningFailed e),
                [.decodePayReq invoice, .getBalance zionAddress,
                 .sendPayment invoice])
          | .ok payment =>
              if payment.paymentError ≠ "" then
                (.error (.paymentError payment.paymentError),
                  [.decodePayReq invoice, .getBalance zionAddress,
                   .sendPayment invoice])
              else
                match zion.sendTransaction zionAddress lightningPoolAddress numSatoshis with
                | .error e =>
                    (.ok (),
                      [.decodePayReq invoice, .getBalance zionAddress,
                       .sendPayment invoice,
                       .sendTransaction zionAddress lightningPoolAddress numSatoshis,
                       .logWarning (msgDeductionFailed ++ e)])
                | .ok _ =>
                    (.ok (),
                      [.decodePayReq invoice, .getBalance zionAddress,
                       .sendPayment invoice,
                       .sendTransaction zionAddress lightningPoolAddress numSatoshis])

/-- Body of the POST /api/v1/pay request after a successful JSON bind: the
invoice, the ZION address, and the optional amount field, which the handler
never passes on. -/
structure PaymentRequest where
  invoice     : String
  zionAddress : String
  amount      : Nat
deriving Repr, DecidableEq

/-- HTTP response: status code and JSON body as key/value pairs. -/
structure HttpResponse where
  status : Nat
  body   : List (String × String)
deriving Repr, DecidableEq

/-- HTTP handler for POST /api/v1/pay after a successful JSON bind: it calls
PayInvoice with the invoice and address only and maps the result to a JSON
response — 500 with the error text on failure, 200 with the fixed success
body otherwise. -/
def handlePayInvoice (lnd : LndEnv) (zion : ZionEnv) (req : PaymentRequest) :
    HttpResponse :=
  match (PayInvoice lnd zion req.invoice req.zionAddress).1 with
  | .error e => ⟨500, [(keyError, e.message)]⟩
  | .ok _ =>
      ⟨200, [(keyStatus, valSuccess), (keyMessage, valCompleted),
             (keyMantra, valMantra)]⟩

/-- Concrete inputs used by counterexamples and witnesses. -/
def testInvoice : String := "lnbc420n1test"

def testAddress : String := "Z3NzionTestAddr"

def testHash : String := "a1b2c3"

def emptyString : String := ""

def msgLedgerDown : String := "ledger down"

def msgChecksum : String := "checksum failed"

def msgUnavailable : String := "rpc error: code = Unavailable desc = connection refused"

/-- LND environment where the invoice decodes to the given amount and the
payment settles with an empty PaymentError. -/
def lndPays (n : Nat) : LndEnv :=
  ⟨fun _ => .ok n, fun _ => .ok ⟨emptyString, testHash⟩⟩

/-- LND environment whose SendPaymentSync fails with a raw transport error. -/
def lndUnavailable (n : Nat) : LndEnv :=
  ⟨fun _ => .ok n, fun _ => .error msgUnavailable⟩

/-- LND environment whose DecodePayReq fails. -/
def lndDecodeFail : LndEnv :=
  ⟨fun _ => .error msgChecksum, fun _ => .ok ⟨emptyString, testHash⟩⟩

/-- Ledger environment with the mock balance whose transfer always fails. -/
def zionLedgerDown : ZionEnv :=
  ⟨fun _ => .ok 1000000, fun _ _ _ => .error msgLedgerDown⟩

/-- Ledger environment holding only 500, transfers succeeding. -/
def zionPoor : ZionEnv :=
  ⟨fun _ => .ok 500, fun _ _ _ => .ok ()⟩

/-- C1: at the failing input where the Lightning payment settles and the
ledger deduction fails, PayInvoice returns nil (success) and its complete
call trace shows the payment was sent, the deduction was attempted once,
failed, and was only logged — no retry and no compensation follow, so the
divergence is permanent, contradicting the claim. -/
theorem C1_silent_divergence_at_failing_input :
    PayInvoice (lndPays 42) zionLedgerDown testInvoice testAddress =
      (.ok (),
        [.decodePayReq testInvoice, .getBalance testAddress,
         .sendPayment testInvoice,
         .sendTransaction testAddress lightningPoolAddress 42,
         .logWarning (msgDeductionFailed ++ msgLedgerDown)]) := rfl

/-- C2: at the failing input where the post-payment ledger debit fails, the
debit is attempted exactly once (no retry, no backoff) and PayInvoice still
reports success rather than moving to any compensating state, contradicting
the claim. -/
theorem C2_single_attempt_reported_success :
    ((PayInvoice (lndPays 77) zionLedgerDown testInvoice testAddress).2.filter
        Event.isTransfer).length = 1
    ∧ (PayInvoice (lndPays 77) zionLedgerDown testInvoice testAddress).1 = .ok ()
    ∧ Event.logWarning (msgDeductionFailed ++ msgLedgerDown) ∈
        (PayInvoice (lndPays 77) zionLedgerDown testInvoice testAddress).2 := by
  refine ⟨rfl, rfl, ?_⟩
  simp [PayInvoice, lndPays, zionLedgerDown, emptyString]

/-- Case analysis on one PayInvoice run: its result and call trace take one of
the explicit shapes below, one per path through the Go function. -/
theorem payInvoice_run_cases (lnd : LndEnv) (zion : ZionEnv) (inv addr : String) :
    (∃ e, lnd.decodePayReq inv = .error e ∧
      PayInvoice lnd zion inv addr =
        (.error (.cannotDecodeInvoice e), [.decodePayReq inv]))
  ∨ (∃ n e, lnd.decodePayReq inv = .ok n ∧ zion.getBalance addr = .error e ∧
      PayInvoice lnd zion inv addr =
        (.error (.cannotGetBalance e), [.decodePayReq inv, .getBalance addr]))
  ∨ (∃ n b, lnd.decodePayReq inv = .ok n ∧ zion.getBalance addr = .ok b ∧
      b < n ∧
      PayInvoice lnd zion inv addr =
        (.error (.insufficientBalance b n), [.decodePayReq inv, .getBalance addr]))
  ∨ (∃ n b e, lnd.decodePayReq inv = .ok n ∧ zion.getBalance addr = .ok b ∧
      ¬ b < n ∧ lnd.sendPaymentSync inv = .error e ∧
      PayInvoice lnd zion inv addr =
        (.error (.lightningFailed e),
          [.decodePayReq inv, .getBalance addr, .sendPayment inv]))
  ∨ (∃ n b p, lnd.decodePayReq inv = .ok n ∧ zion.getBalance addr = .ok b ∧
      ¬ b < n ∧ lnd.sendPaymentSync inv = .ok p ∧ p.paymentError ≠ "" ∧
      PayInvoice lnd zion inv addr =
        (.error (.paymentError p.paymentError),
          [.decodePayReq inv, .getBalance addr, .sendPayment inv]))
  ∨ (∃ n b p, lnd.decodePayReq inv = .ok n ∧ zion.getBalance addr = .ok b ∧
      ¬ b < n ∧ lnd.sendPaymentSync inv = .ok p ∧ p.paymentError = "" ∧
      ((∃ e, zion.sendTransaction addr lightningPoolAddress n = .error e ∧
          PayInvoice lnd zion inv addr =
            (.ok (),
              [.decodePayReq inv, .getBalance addr, .sendPayment inv,
               .sendTransaction addr lightningPoolAddress n,
               .logWarning (msgDeductionFailed ++ e)]))
       ∨ (∃ u, zion.sendTransaction addr lightningPoolAddress n = .ok u ∧
          PayInvoice lnd zion inv addr =
            (.ok (),
              [.decodePayReq inv, .getBalance addr, .sendPayment inv,
               .sendTransaction addr lightningPoolAddress n])))) := by
  cases hd : lnd.decodePayReq inv with
  | error e => exact Or.inl ⟨e, rfl, by simp [PayInvoice, hd]⟩
  | ok n =>
    cases hb : zion.getBalance addr with
    | error e =>
        exact Or.inr (Or.inl ⟨n, e, rfl, rfl, by simp [PayInvoice, hd, hb]⟩)
    | ok b =>
      by_cases hlt : b < n
      · exact Or.inr (Or.inr (Or.inl
          ⟨n, b, rfl, rfl, hlt, by simp [PayInvoice, hd, hb, hlt]⟩))
      · cases hs : lnd.sendPaymentSync inv with
        | error e =>
            exact Or.inr (Or.inr (Or.inr (Or.inl
              ⟨n, b, e, rfl, rfl, hlt, rfl, by simp [PayInvoice, hd, hb, hlt, hs]⟩)))
        | ok p =>
          by_cases hpe : p.paymentError = ""
          · cases ht : zion.sendTransaction addr lightningPoolAddress n with
            | error e =>
                exact Or.inr (Or.inr (Or.inr (Or.inr (Or.inr
                  ⟨n, b, p, rfl, rfl, hlt, rfl, hpe, Or.inl
                    ⟨e, ht, by simp [PayInvoice, hd, hb, hlt, hs, hpe, ht]⟩⟩))))
            | ok u =>
                exact Or.inr (Or.inr (Or.inr (Or.inr (Or.inr
                  ⟨n, b, p, rfl, rfl, hlt, rfl, hpe, Or.inr
                    ⟨u, ht, by simp [PayInvoice, hd, hb, hlt, hs, hpe, ht]⟩⟩))))
          · exact Or.inr (Or.inr (Or.inr (Or.inr (Or.inl
              ⟨n, b, p, rfl, rfl, hlt, rfl, hpe,
                by simp [PayInvoice, hd, hb, hlt, hs, hpe]⟩))))

/-- C3, counterexample: the code keeps no idempotency key, so a retry of the
pay operation with the same invoice (same settlement) sends the Lightning
payment a second time — across the two calls the payment is sent twice. -/
theorem C3_counterexample_double_send :
    (((PayInvoice (lndPays 42) zionRPCClient testInvoice testAddress).2 ++
        (PayInvoice (lndPays 42) zionRPCClient testInvoice testAddress).2).filter
      Event.isSend).length = 2 := rfl

/-- C3, amended: within a single invocation of the pay operation the
Lightning payment is sent at most once; no cross-call idempotency key
exists. -/
theorem C3_amended_at_most_once_per_call (lnd : LndEnv) (zion : ZionEnv)
    (inv addr : String) :
    ((PayInvoice lnd zion inv addr).2.filter Event.isSend).length ≤ 1 := by
  rcases payInvoice_run_cases lnd zion inv addr with
    ⟨e, hd, hp⟩ | ⟨n, e, hd, hb, hp⟩ | ⟨n, b, hd, hb, hlt, hp⟩ |
    ⟨n, b, e, hd, hb, hlt, hs, hp⟩ | ⟨n, b, p, hd, hb, hlt, hs, hpe, hp⟩ |
    ⟨n, b, p, hd, hb, hlt, hs, hpe, ⟨e, ht, hp⟩ | ⟨u, ht, hp⟩⟩ <;>
  rw [hp] <;> first
  | exact Nat.zero_le 1
  | exact Nat.le_refl 1

/-- C4, counterexample: a request whose caller-supplied amount (5) differs
from the amount the invoice requests (100) is not rejected: the handler
returns the 200 success body and the Lightning payment is sent, so the
claimed amount-match validation does not exist. -/
theorem C4_counterexample_mismatch_not_rejected :
    handlePayInvoice (lndPays 100) zionRPCClient ⟨testInvoice, testAddress, 5⟩ =
      ⟨200, [(keyStatus, valSuccess), (keyMessage, valCompleted),
             (keyMantra, valMantra)]⟩
    ∧ Event.sendPayment testInvoice ∈
        (PayInvoice (lndPays 100) zionRPCClient testInvoice testAddress).2 :=
  ⟨rfl, by decide⟩

/-- C4, amended: the pay operation returns an error without issuing any
external call beyond the decode itself whenever the invoice fails to decode,
and the caller-supplied amount field is ignored — the handler's result never
depends on it, so no comparison with the invoice amount takes place. -/
theorem C4_amended_decode_guard_and_amount_ignored :
    (∀ (lnd : LndEnv) (zion : ZionEnv) (inv addr e : String),
        lnd.decodePayReq inv = .error e →
        PayInvoice lnd zion inv addr =
          (.error (.cannotDecodeInvoice e), [.decodePayReq inv]))
    ∧ (∀ (lnd : LndEnv) (zion : ZionEnv) (inv addr : String) (a b : Nat),
        handlePayInvoice lnd zion ⟨inv, addr, a⟩ =
          handlePayInvoice lnd zion ⟨inv, addr, b⟩) := by
  constructor
  · intro lnd zion inv addr e h
    simp [PayInvoice, h]
  · intro lnd zion inv addr a b
    rfl

/-- C4, witness for the amended theorem at a concrete decode failure. -/
theorem C4_witness :
    PayInvoice lndDecodeFail zionRPCClient testInvoice testAddress =
      (.error (.cannotDecodeInvoice msgChecksum), [.decodePayReq testInvoice]) :=
  C4_amended_decode_guard_and_amount_ignored.1 lndDecodeFail zionRPCClient
    testInvoice testAddress msgChecksum rfl

/-- C5: when the decoded invoice amount exceeds the account balance, the pay
operation fails with the insufficient-balance error and its complete call
trace is just the decode and the balance query — no Lightning payment is
sent and no ledger transfer is issued. -/
theorem C5_insufficient_balance_no_mutation (lnd : LndEnv) (zion : ZionEnv)
    (inv addr : String) (n b : Nat) (h1 : lnd.decodePayReq inv = .ok n)
    (h2 : zion.getBalance addr = .ok b) (h3 : b < n) :
    PayInvoice lnd zion inv addr =
      (.error (.insufficientBalance b n),
        [.decodePayReq inv, .getBalance addr]) := by
  simp [PayInvoice, h1, h2, h3]

/-- C5, witness: the scenario of the spec, amount 1000 against balance 500. -/
theorem C5_witness :
    PayInvoice (lndPays 1000) zionPoor testInvoice testAddress =
      (.error (.insufficientBalance 500 1000),
        [.decodePayReq testInvoice, .getBalance testAddress]) :=
  C5_insufficient_balance_no_mutation (lndPays 1000) zionPoor testInvoice
    testAddress 1000 500 rfl rfl (by decide)

/-- C6: whenever the Lightning payment is sent, the balance query happened
strictly before it and succeeded with a balance at least the decoded amount:
the trace always starts with the decode, then the balance check, and only
then the send. -/
theorem C6_send_after_balance_check (lnd : LndEnv) (zion : ZionEnv)
    (inv addr : String)
    (h : Event.sendPayment inv ∈ (PayInvoice lnd zion inv addr).2) :
    ∃ n b rest, lnd.decodePayReq inv = .ok n ∧
      zion.getBalance addr = .ok b ∧ ¬ b < n ∧
      (PayInvoice lnd zion inv addr).2 =
        [.decodePayReq inv, .getBalance addr, .sendPayment inv] ++ rest := by
  rcases payInvoice_run_cases lnd zion inv addr with
    ⟨e, hd, hp⟩ | ⟨n, e, hd, hb, hp⟩ | ⟨n, b, hd, hb, hlt, hp⟩ |
    ⟨n, b, e, hd, hb, hlt, hs, hp⟩ | ⟨n, b, p, hd, hb, hlt, hs, hpe, hp⟩ |
    ⟨n, b, p, hd, hb, hlt, hs, hpe, ⟨e, ht, hp⟩ | ⟨u, ht, hp⟩⟩
  · rw [hp] at h; simp at h
  · rw [hp] at h; simp at h
  · rw [hp] at h; simp at h
  · exact ⟨n, b, [], hd, hb, hlt, by rw [hp]; rfl⟩
  · exact ⟨n, b, [], hd, hb, hlt, by rw [hp]; rfl⟩
  · exact ⟨n, b, [.sendTransaction addr lightningPoolAddress n,
      .logWarning (msgDeductionFailed ++ e)], hd, hb, hlt, by rw [hp]; rfl⟩
  · exact ⟨n, b, [.sendTransaction addr lightningPoolAddress n], hd, hb, hlt,
      by rw [hp]; rfl⟩

/-- C6, witness at a concrete paying run. -/
theorem C6_witness :
    ∃ n b rest, (lndPays 42).decodePayReq testInvoice = .ok n ∧
      zionRPCClient.getBalance testAddress = .ok b ∧ ¬ b < n ∧
      (PayInvoice (lndPays 42) zionRPCClient testInvoice testAddress).2 =
        [.decodePayReq testInvoice, .getBalance testAddress,
         .sendPayment testInvoice] ++ rest :=
  C6_send_after_balance_check (lndPays 42) zionRPCClient testInvoice
    testAddress (by decide)

/-- C7: every failing run of the pay operation issues no ledger transfer at
all, so the ZION ledger balance is unchanged — folding the intended transfer
semantics over the call trace returns the starting ledger. -/
theorem C7_failure_leaves_ledger_unchanged (lnd : LndEnv) (zion : ZionEnv)
    (inv addr : String) (e : PayError) (ledger : String → Nat)
    (h : (PayInvoice lnd zion inv addr).1 = .error e) :
    (PayInvoice lnd zion inv addr).2.filter Event.isTransfer = []
    ∧ applyEvents ledger (PayInvoice lnd zion inv addr).2 = ledger := by
  rcases payInvoice_run_cases lnd zion inv addr with
    ⟨e2, hd, hp⟩ | ⟨n, e2, hd, hb, hp⟩ | ⟨n, b, hd, hb, hlt, hp⟩ |
    ⟨n, b, e2, hd, hb, hlt, hs, hp⟩ | ⟨n, b, p, hd, hb, hlt, hs, hpe, hp⟩ |
    ⟨n, b, p, hd, hb, hlt, hs, hpe, ⟨e2, ht, hp⟩ | ⟨u, ht, hp⟩⟩ <;>
  rw [hp] at h ⊢ <;> first
  | exact ⟨rfl, rfl⟩
  | exact absurd h (by simp)

/-- C7, witness at a concrete failing run (payment transport error). -/
theorem C7_witness :
    (PayInvoice (lndUnavailable 42) zionRPCClient testInvoice testAddress).2.filter
        Event.isTransfer = []
    ∧ applyEvents (fun _ => 1000000)
        (PayInvoice (lndUnavailable 42) zionRPCClient testInvoice testAddress).2 =
      (fun _ => 1000000) :=
  C7_failure_leaves_ledger_unchanged (lndUnavailable 42) zionRPCClient
    testInvoice testAddress (.lightningFailed msgUnavailable)
    (fun _ => 1000000) rfl

/-- C8, counterexample: when the Lightning node returns a raw gRPC transport
error, the handler reports HTTP 500 with a single error field whose value is
the wrapped raw transport text; the body carries no settlement id of any
kind, so the claim fails at this input. -/
theorem C8_counterexample_raw_transport_error_exposed :
    handlePayInvoice (lndUnavailable 99) zionRPCClient
        ⟨testInvoice, testAddress, 99⟩ =
      ⟨500, [(keyError, msgLightningFailed ++ msgUnavailable)]⟩
    ∧ (handlePayInvoice (lndUnavailable 99) zionRPCClient
        ⟨testInvoice, testAddress, 99⟩).body.length = 1 :=
  ⟨rfl, rfl⟩

/-- C8, amended: every user-visible failure of the pay operation is reported
as HTTP 500 whose only body field is the failing step's wrapped error
message — which embeds the underlying transport error text — and no
settlement id is reported, because settlements do not exist in the code. -/
theorem C8_amended_error_body_is_wrapped_message (lnd : LndEnv)
    (zion : ZionEnv) (req : PaymentRequest) (e : PayError)
    (h : (PayInvoice lnd zion req.invoice req.zionAddress).1 = .error e) :
    handlePayInvoice lnd zion req = ⟨500, [(keyError, e.message)]⟩ := by
  simp [handlePayInvoice, h]

/-- C8, witness at the concrete transport failure. -/
theorem C8_witness :
    handlePayInvoice (lndUnavailable 42) zionRPCClient
        ⟨testInvoice, testAddress, 42⟩ =
      ⟨500, [(keyError, PayError.message (.lightningFailed msgUnavailable))]⟩ :=
  C8_amended_error_body_is_wrapped_message (lndUnavailable 42) zionRPCClient
    ⟨testInvoice, testAddress, 42⟩ (.lightningFailed msgUnavailable) rfl

/-- C9: the ledger balance query of the source returns the constant 1000000
with a nil error for every address, and with that client the pay operation
returns the insufficient-balance rejection exactly when the decoded invoice
amount exceeds 1000000, whatever the address. -/
theorem C9_mock_balance_and_insufficiency_iff :
    (∀ addr, ZionRPCClient.GetBalance addr = .ok 1000000)
    ∧ ∀ (lnd : LndEnv) (inv addr : String) (n : Nat),
        lnd.decodePayReq inv = .ok n →
        ((PayInvoice lnd zionRPCClient inv addr).1 =
            .error (.insufficientBalance 1000000 n) ↔ 1000000 < n) := by
  refine ⟨fun addr => rfl, ?_⟩
  intro lnd inv addr n hd
  by_cases hlt : 1000000 < n
  · simp [PayInvoice, hd, zionRPCClient, ZionRPCClient.GetBalance, hlt]
  · simp only [PayInvoice, hd, zionRPCClient, ZionRPCClient.GetBalance, hlt,
      if_false]
    cases hs : lnd.sendPaymentSync inv with
    | error e => simp [hs, hlt]
    | ok p =>
      by_cases hpe : p.paymentError = ""
      · simp [hs, hpe, ZionRPCClient.SendTransaction, hlt]
      · simp [hs, hpe, hlt]

/-- C9, witness: an invoice for 2000000 is rejected as insufficient against
the mock balance. -/
theorem C9_witness :
    (PayInvoice (lndPays 2000000) zionRPCClient testInvoice testAddress).1 =
        .error (.insufficientBalance 1000000 2000000) ↔ 1000000 < 2000000 :=
  C9_mock_balance_and_insufficiency_iff.2 (lndPays 2000000) testInvoice
    testAddress 2000000 rfl

/-- C10: the ledger transfer stub returns a nil error for every input, so
with the in-repo client the warning branch of the pay operation (deduction
failed after a successful payment) is unreachable — no run ever logs that
warning — and every run whose Lightning payment settles returns nil. -/
theorem C10_transfer_never_fails_success_propagates :
    (∀ f t a, ZionRPCClient.SendTransaction f t a = .ok ())
    ∧ (∀ (lnd : LndEnv) (inv addr m : String),
        Event.logWarning m ∉ (PayInvoice lnd zionRPCClient inv addr).2)
    ∧ (∀ (lnd : LndEnv) (inv addr : String) (n : Nat) (r : SendResponse),
        lnd.decodePayReq inv = .ok n → ¬ 1000000 < n →
        lnd.sendPaymentSync inv = .ok r → r.paymentError = "" →
        (PayInvoice lnd zionRPCClient inv addr).1 = .ok ()) := by
  refine ⟨fun f t a => rfl, ?_, ?_⟩
  · intro lnd inv addr m
    rcases payInvoice_run_cases lnd zionRPCClient inv addr with
      ⟨e, hd, hp⟩ | ⟨n, e, hd, hb, hp⟩ | ⟨n, b, hd, hb, hlt, hp⟩ |
      ⟨n, b, e, hd, hb, hlt, hs, hp⟩ | ⟨n, b, p, hd, hb, hlt, hs, hpe, hp⟩ |
      ⟨n, b, p, hd, hb, hlt, hs, hpe, ⟨e, ht, hp⟩ | ⟨u, ht, hp⟩⟩
    · rw [hp]; simp
    · rw [hp]; simp
    · rw [hp]; simp
    · rw [hp]; simp
    · rw [hp]; simp
    · exact absurd ht (by simp [zionRPCClient, ZionRPCClient.SendTransaction])
    · rw [hp]; simp
  · intro lnd inv addr n r hd hlt hs hpe
    simp [PayInvoice, hd, zionRPCClient, ZionRPCClient.GetBalance, hlt, hs,
      hpe, ZionRPCClient.SendTransaction]

/-- C10, witness: a concrete settled payment returns nil. -/
theorem C10_witness :
    (PayInvoice (lndPays 42) zionRPCClient testInvoice testAddress).1 =
      .ok () :=
  C10_transfer_never_fails_success_propagates.2.2 (lndPays 42) testInvoice
    testAddress 42 ⟨emptyString, testHash⟩ rfl (by decide) rfl rfl
